import Mathlib

/-!
Verification development for the hype_bot signal-detection engine.

Shallow embedding of `src/services/setup_finder.py` (class `SetupFinder`)
and `src/services/indicators.py` (class `IndicatorEngine`) over exact
rationals.  Pandas float semantics that matter for the claims (NaN fill of
the RSI warm-up rows, the `gain/loss` division when the rolling loss is
zero) are modelled as explicit branches, following what the pandas
operations produce on the given expressions:

* `Series.diff()` yields NaN at row 0; `delta.where(delta > 0, 0)` turns
  that NaN into `0` (NaN > 0 is false), so the gain/loss series start with
  an explicit `0`.
* `rolling(window=p).mean()` is NaN for the first `p - 1` rows
  (min_periods defaults to the window); modelled with `Option`.
* `rs = gain / loss` with `loss = 0` is `+inf` when `gain > 0` (so
  `100 - 100 / (1 + rs) = 100`) and NaN when `gain = 0` (so the final
  `fillna(50)` turns it into `50`).
-/

namespace HypeBot

/-- One OHLCV bar.  Python dataframe columns `timestamp, open, high, low,
close, volume` (plus `datetime`, a human-readable copy of `timestamp`,
which we do not duplicate).  `open` is a Lean keyword, hence `open_`. -/
structure Candle where
  timestamp : Nat
  open_ : ℚ
  high : ℚ
  low : ℚ
  close : ℚ
  volume : ℚ
deriving Repr, DecidableEq

/-- Default used for total list indexing (`List.getD`); never reached on
the in-range indices the code touches. -/
def defaultCandle : Candle := ⟨0, 0, 0, 0, 0, 0⟩

/-- A dataframe row after `SetupFinder.calculate_indicators` added its
columns `ema9, ema21, rsi, tp, pv, cum_pv, cum_vol, vwap`. -/
structure IndicatorRow where
  timestamp : Nat
  open_ : ℚ
  high : ℚ
  low : ℚ
  close : ℚ
  volume : ℚ
  ema9 : ℚ
  ema21 : ℚ
  rsi : ℚ
  tp : ℚ
  pv : ℚ
  cum_pv : ℚ
  cum_vol : ℚ
  vwap : ℚ
deriving Repr, DecidableEq

/-- Default used for total list indexing. -/
def defaultRow : IndicatorRow := ⟨0, 0, 0, 0, 0, 0, 0, 0, 0, 0, 0, 0, 0, 0⟩

/-- The dict returned by `SetupFinder.find_setup` (keys `setup`,
`signal_type`, `price`, `time`, `stop_loss`, `take_profit`). -/
structure Signal where
  setup : String
  signal_type : String
  price : ℚ
  time : Nat
  stop_loss : ℚ
  take_profit : ℚ
deriving Repr, DecidableEq

/-- Default used for total `Option.getD` projections in statements. -/
def defaultSignal : Signal := ⟨"", "", 0, 0, 0, 0⟩

/-! ### Series helpers (pandas primitives used by the source) -/

/-- `Series.diff()` without its leading NaN: pairwise differences
`x[i+1] - x[i]`. -/
def diffList : List ℚ → List ℚ
  | [] => []
  | [_] => []
  | x :: y :: t => (y - x) :: diffList (y :: t)

/-- `delta.where(delta > 0, 0)`: the positive differences, with the
leading NaN of `diff()` already collapsed to `0` (NaN > 0 is false). -/
def gainsOf (closes : List ℚ) : List ℚ :=
  match closes with
  | [] => []
  | _ :: _ => 0 :: (diffList closes).map (fun d => if d > 0 then d else 0)

/-- `-delta.where(delta < 0, 0)`: the negated negative differences,
again with a leading `0` in place of the NaN of `diff()`. -/
def lossesOf (closes : List ℚ) : List ℚ :=
  match closes with
  | [] => []
  | _ :: _ => 0 :: (diffList closes).map (fun d => if d < 0 then -d else 0)

/-- `Series.rolling(window=w).mean()`: `none` (NaN) while the window is
incomplete (first `w - 1` rows), else the mean of the trailing `w`
entries. -/
def rollingMean (w : ℕ) (xs : List ℚ) : List (Option ℚ) :=
  (List.range xs.length).map fun i =>
    if i + 1 < w then none
    else some ((((xs.take (i + 1)).drop (i + 1 - w)).sum) / (w : ℚ))

/-- One cell of `(100 - 100 / (1 + gain / loss)).fillna(50)`:
`none` inputs are the rolling-window NaNs; `loss = 0` with positive gain
yields `+inf` for `rs`, hence RSI `100`; `loss = 0 = gain` yields NaN,
hence the `fillna` value `50`. -/
def rsiCell (g l : Option ℚ) : ℚ :=
  match g, l with
  | some gv, some lv =>
      if lv = 0 then (if gv = 0 then 50 else 100)
      else 100 - 100 / (1 + gv / lv)
  | _, _ => 50

/-- The full RSI column for a close series: shared implementation of
`IndicatorEngine.calculate_rsi` and the inline RSI block of
`SetupFinder.calculate_indicators`. -/
def rsiList (period : ℕ) (closes : List ℚ) : List ℚ :=
  let gs := rollingMean period (gainsOf closes)
  let ls := rollingMean period (lossesOf closes)
  (List.range closes.length).map fun i => rsiCell (gs.getD i none) (ls.getD i none)

/-- `Series.ewm(span, adjust=False).mean()` continuation: each new value
is `alpha * x + (1 - alpha) * prev`. -/
def emaFrom (alpha : ℚ) (e : ℚ) : List ℚ → List ℚ
  | [] => []
  | x :: xs =>
      let e2 := alpha * x + (1 - alpha) * e
      e2 :: emaFrom alpha e2 xs

/-- `Series.ewm(span=s, adjust=False).mean()`: seeded with the first
value, smoothing factor `2 / (span + 1)`. -/
def emaList (span : ℕ) (closes : List ℚ) : List ℚ :=
  match closes with
  | [] => []
  | c :: cs => c :: emaFrom (2 / ((span : ℚ) + 1)) c cs

/-- `Series.cumsum()` with an explicit running accumulator. -/
def cumsumFrom (acc : ℚ) : List ℚ → List ℚ
  | [] => []
  | x :: xs => (acc + x) :: cumsumFrom (acc + x) xs

/-- `Series.cumsum()`. -/
def cumsumList (xs : List ℚ) : List ℚ := cumsumFrom 0 xs

/-! ### `SetupFinder` (src/services/setup_finder.py) -/

namespace SetupFinder

/-- `self.rsi_period = 9`. -/
def rsi_period : ℕ := 9

/-- `self.ema_fast = 9`. -/
def ema_fast : ℕ := 9

/-- `self.ema_slow = 21`. -/
def ema_slow : ℕ := 21

/-- Typical price `df['tp'] = (df['high'] + df['low'] + df['close']) / 3`. -/
def tpOf (c : Candle) : ℚ := (c.high + c.low + c.close) / 3

/-- `df['pv'] = df['tp'] * df['volume']`. -/
def pvOf (c : Candle) : ℚ := tpOf c * c.volume

/-- `SetupFinder.calculate_indicators`: EMA 9/21 (`ewm`, adjust=False),
RSI 9 (rolling means with `fillna(50)`), and VWAP as the plain cumulative
sum of `tp * volume` divided by the cumulative sum of `volume` over the
whole dataframe (the source comments that it is computed "from the start
of the loaded dataframe", with no session reset). -/
def calculateIndicators (candles : List Candle) : List IndicatorRow :=
  let closes := candles.map Candle.close
  let ema9s := emaList ema_fast closes
  let ema21s := emaList ema_slow closes
  let rsis := rsiList rsi_period closes
  let tps := candles.map tpOf
  let pvs := candles.map pvOf
  let cumPvs := cumsumList pvs
  let cumVols := cumsumList (candles.map Candle.volume)
  (List.range candles.length).map fun i =>
    let c := candles.getD i defaultCandle
    { timestamp := c.timestamp
      open_ := c.open_
      high := c.high
      low := c.low
      close := c.close
      volume := c.volume
      ema9 := ema9s.getD i 0
      ema21 := ema21s.getD i 0
      rsi := rsis.getD i 0
      tp := tps.getD i 0
      pv := pvs.getD i 0
      cum_pv := cumPvs.getD i 0
      cum_vol := cumVols.getD i 0
      vwap := cumPvs.getD i 0 / cumVols.getD i 0 }

/-- `SetupFinder.check_setup_1_pullback` (the `prev_row`/`prev2_row`
parameters are accepted but unused, exactly as in the source). -/
def checkSetup1Pullback (row prevRow prev2Row : IndicatorRow) : Option String :=
  let trend_up := row.close > row.vwap ∧ row.ema9 > row.ema21
  let is_green := row.close > row.open_
  let is_bounce := is_green ∧ row.low ≤ row.ema21 * 1.002
  let rsi_ok := 45 ≤ row.rsi ∧ row.rsi ≤ 65
  if trend_up ∧ is_bounce ∧ rsi_ok then some "LONG (Pullback)"
  else
    let trend_down := row.close < row.vwap ∧ row.ema9 < row.ema21
    let is_red := row.close < row.open_
    let is_bounce_down := is_red ∧ row.high ≥ row.ema21 * 0.998
    let rsi_ok_short := 35 ≤ row.rsi ∧ row.rsi ≤ 55
    if trend_down ∧ is_bounce_down ∧ rsi_ok_short then some "SHORT (Pullback)"
    else none

/-- `SetupFinder.check_setup_2_breakout`. -/
def checkSetup2Breakout (row prevRow prev2Row : IndicatorRow) : Option String :=
  let vol_surge := row.volume > prevRow.volume * 1.2
  let body_size := |row.close - row.open_|
  let prev_body := |prevRow.close - prevRow.open_|
  let big_candle := body_size > prev_body * 1.5
  if row.close > row.vwap ∧ row.rsi > 60 ∧ vol_surge ∧ big_candle ∧ row.close > row.open_ then
    some "LONG (Breakout)"
  else if row.close < row.vwap ∧ row.rsi < 40 ∧ vol_surge ∧ big_candle ∧ row.close < row.open_ then
    some "SHORT (Breakout)"
  else none

/-- `SetupFinder.check_setup_3_reversion`. -/
def checkSetup3Reversion (row prevRow : IndicatorRow) : Option String :=
  let dist_to_vwap := (row.vwap - row.close) / row.vwap
  let is_far_below := dist_to_vwap > 0.02
  if is_far_below ∧ row.rsi < 30 ∧ row.close > row.open_ then some "LONG (Reversion)"
  else
    let dist_to_vwap_short := (row.close - row.vwap) / row.vwap
    let is_far_above := dist_to_vwap_short > 0.02
    if is_far_above ∧ row.rsi > 70 ∧ row.close < row.open_ then some "SHORT (Reversion)"
    else none

/-- Python `"LONG" in sig`: substring containment of `"LONG"`. -/
def containsLONG (s : String) : Bool := go s.data
where
  go : List Char → Bool
    | 'L' :: 'O' :: 'N' :: 'G' :: _ => true
    | _ :: t => go t
    | [] => false

/-- `SetupFinder.find_setup`: returns `None` when the frame is empty or
shorter than 30 rows; otherwise recomputes the indicators, evaluates the
last closed candle `iloc[-2]` (with `iloc[-3]`, `iloc[-4]` as context)
against the three setups in the fixed order breakout, pullback,
reversion, and returns the first hit.  The dict's `time` field reads the
`datetime` column, which carries the candle's timestamp. -/
def findSetup (candles : List Candle) : Option Signal :=
  if candles.isEmpty ∨ candles.length < 30 then none
  else
    let rows := calculateIndicators candles
    let last_closed := rows.getD (rows.length - 2) defaultRow
    let prev_closed := rows.getD (rows.length - 3) defaultRow
    let prev2_closed := rows.getD (rows.length - 4) defaultRow
    match checkSetup2Breakout last_closed prev_closed prev2_closed with
    | some sig =>
        some { setup := "Breakout"
               signal_type := sig
               price := last_closed.close
               time := last_closed.timestamp
               stop_loss := if containsLONG sig then last_closed.close * 0.995
                            else last_closed.close * 1.005
               take_profit := if containsLONG sig then last_closed.close * 1.015
                              else last_closed.close * 0.985 }
    | none =>
      match checkSetup1Pullback last_closed prev_closed prev2_closed with
      | some sig =>
          some { setup := "Pullback"
                 signal_type := sig
                 price := last_closed.close
                 time := last_closed.timestamp
                 stop_loss := last_closed.ema21
                 take_profit := last_closed.close + |last_closed.close - last_closed.ema21| * 2 }
      | none =>
        match checkSetup3Reversion last_closed prev_closed with
        | some sig =>
            some { setup := "Reversion"
                   signal_type := sig
                   price := last_closed.close
                   time := last_closed.timestamp
                   stop_loss := if containsLONG sig then last_closed.low else last_closed.high
                   take_profit := last_closed.vwap }
        | none => none

end SetupFinder

/-! ### `IndicatorEngine` (src/services/indicators.py) -/

namespace IndicatorEngine

/-- `IndicatorEngine.calculate_rsi` (default period 14 at the call sites
that omit it). -/
def calculateRsi (period : ℕ) (closes : List ℚ) : List ℚ :=
  rsiList period closes

/-- A ZigZag pivot: the dict `{'index', 'price', 'type', 'time'}`. -/
structure Pivot where
  index : ℕ
  price : ℚ
  type : String
  time : Nat
deriving Repr, DecidableEq

/-- The loop state of `calculate_zigzag`: `last_pivot_price`,
`last_pivot_idx`, `trend` (0 undetermined, 1 up, -1 down) and the pivot
list accumulated so far. -/
structure ZigState where
  lastPivotPrice : ℚ
  lastPivotIdx : ℕ
  trend : Int
  pivots : List Pivot
deriving Repr, DecidableEq

/-- One iteration of the `for i in range(1, len(closes))` loop body of
`calculate_zigzag`. -/
def zigzagStep (dev : ℚ) (ts : List Nat) (s : ZigState) (i : ℕ) (price : ℚ) : ZigState :=
  let change := (price - s.lastPivotPrice) / s.lastPivotPrice * 100
  if s.trend = 0 then
    if change ≥ dev then { s with trend := 1, lastPivotPrice := price, lastPivotIdx := i }
    else if change ≤ -dev then { s with trend := -1, lastPivotPrice := price, lastPivotIdx := i }
    else s
  else if s.trend = 1 then
    if price > s.lastPivotPrice then { s with lastPivotPrice := price, lastPivotIdx := i }
    else if change ≤ -dev then
      { pivots := s.pivots ++
          [⟨s.lastPivotIdx, s.lastPivotPrice, "peak", ts.getD s.lastPivotIdx 0⟩]
        trend := -1
        lastPivotPrice := price
        lastPivotIdx := i }
    else s
  else if s.trend = -1 then
    if price < s.lastPivotPrice then { s with lastPivotPrice := price, lastPivotIdx := i }
    else if change ≥ dev then
      { pivots := s.pivots ++
          [⟨s.lastPivotIdx, s.lastPivotPrice, "valley", ts.getD s.lastPivotIdx 0⟩]
        trend := 1
        lastPivotPrice := price
        lastPivotIdx := i }
    else s
  else s

/-- The loop of `calculate_zigzag`, running over the closes after index 0
while tracking the current index. -/
def zigzagLoop (dev : ℚ) (ts : List Nat) : ℕ → List ℚ → ZigState → ZigState
  | _, [], s => s
  | i, p :: rest, s => zigzagLoop dev ts (i + 1) rest (zigzagStep dev ts s i p)

/-- The trailing tentative pivot appended after the pass:
`'peak' if trend == 1 else 'valley'` at the current anchor. -/
def finalPivot (ts : List Nat) (s : ZigState) : Pivot :=
  ⟨s.lastPivotIdx, s.lastPivotPrice, if s.trend = 1 then "peak" else "valley",
    ts.getD s.lastPivotIdx 0⟩

/-- `IndicatorEngine.calculate_zigzag` over the `close` and `timestamp`
columns.  On an empty frame the source evaluates `closes[0]` and dies
with an uncaught `IndexError`; that error outcome is `none` here. -/
def calculateZigzag (closes : List ℚ) (timestamps : List Nat) (dev : ℚ) :
    Option (List Pivot) :=
  match closes with
  | [] => none
  | c0 :: rest =>
      let fin := zigzagLoop dev timestamps 1 rest ⟨c0, 0, 0, []⟩
      some (fin.pivots ++ [finalPivot timestamps fin])

end IndicatorEngine

/-! ### Concrete candle series used as test vectors

All series are 30 candles (the minimum `find_setup` accepts), hourly
timestamps, and satisfy the candle invariant
`low ≤ min(open, close) ≤ max(open, close) ≤ high`, `volume ≥ 0`. -/

/-- A flat 100/100/100/100 candle with volume 10 at time `t`. -/
def flatCandle (t : Nat) : Candle := ⟨t, 100, 100, 100, 100, 10⟩

/-- 25 flat candles, then a 103 spike, a retrace to 100 and a two-candle
recovery to 102.  At the signal candle (index 28, `iloc[-2]`): RSI(9) is
62.5, the close 102 is above VWAP, EMA9 is above EMA21, the candle is
green and its low 100 sits below EMA21, and the volume never rises, so
the breakout check cannot fire: `find_setup` emits a LONG pullback. -/
def pullbackLongSeries : List Candle :=
  (List.range 25).map (fun k => flatCandle (k * 3600000)) ++
  [ ⟨25 * 3600000, 100, 103, 100, 103, 10⟩
  , ⟨26 * 3600000, 103, 103, 100, 100, 10⟩
  , ⟨27 * 3600000, 100, 101, 100, 101, 10⟩
  , ⟨28 * 3600000, 101, 102, 100, 102, 10⟩
  , ⟨29 * 3600000, 102, 102, 102, 102, 10⟩ ]

/-- The mirror image of `pullbackLongSeries`: a dip to 97 and a decline
back to 98.  At the signal candle RSI(9) is 37.5, the close 98 is below
VWAP, EMA9 below EMA21, the candle is red with its high 100 above EMA21;
volumes are constant so the breakout check cannot fire: `find_setup`
emits a SHORT pullback. -/
def pullbackShortSeries : List Candle :=
  (List.range 25).map (fun k => flatCandle (k * 3600000)) ++
  [ ⟨25 * 3600000, 100, 100, 97, 97, 10⟩
  , ⟨26 * 3600000, 97, 100, 97, 100, 10⟩
  , ⟨27 * 3600000, 100, 100, 99, 99, 10⟩
  , ⟨28 * 3600000, 99, 100, 98, 98, 10⟩
  , ⟨29 * 3600000, 98, 98, 98, 98, 10⟩ ]

/-- Like `pullbackLongSeries` but the signal candle's volume is exactly
1.2 times the previous candle's (12 vs 10) and its body (1) is strictly
more than 1.5 times the previous body (0.4): every breakout-Long
condition holds at the exact 20%-volume boundary, which the code's
strict `>` rejects. -/
def breakoutBoundarySeries : List Candle :=
  (List.range 25).map (fun k => flatCandle (k * 3600000)) ++
  [ ⟨25 * 3600000, 100, 103, 100, 103, 10⟩
  , ⟨26 * 3600000, 103, 103, 100, 100, 10⟩
  , ⟨27 * 3600000, 100.6, 101, 100, 101, 10⟩
  , ⟨28 * 3600000, 101, 102, 100, 102, 12⟩
  , ⟨29 * 3600000, 102, 102, 102, 102, 12⟩ ]

/-- Like `breakoutBoundarySeries` but with signal volume 13 (> 12 = 1.2
times the prior volume), so the breakout check and the pullback check
are simultaneously satisfied at the signal candle. -/
def breakoutAndPullbackSeries : List Candle :=
  (List.range 25).map (fun k => flatCandle (k * 3600000)) ++
  [ ⟨25 * 3600000, 100, 103, 100, 103, 10⟩
  , ⟨26 * 3600000, 103, 103, 100, 100, 10⟩
  , ⟨27 * 3600000, 100.6, 101, 100, 101, 10⟩
  , ⟨28 * 3600000, 101, 102, 100, 102, 13⟩
  , ⟨29 * 3600000, 102, 102, 102, 102, 13⟩ ]

/-- The same OHLCV bars as `pullbackLongSeries` but with strictly
decreasing timestamps: a malformed (non-monotonic) series. -/
def nonMonotonicSeries : List Candle :=
  (List.range 25).map (fun k => flatCandle ((29 - k) * 3600000)) ++
  [ ⟨4 * 3600000, 100, 103, 100, 103, 10⟩
  , ⟨3 * 3600000, 103, 103, 100, 100, 10⟩
  , ⟨2 * 3600000, 100, 101, 100, 101, 10⟩
  , ⟨1 * 3600000, 101, 102, 100, 102, 10⟩
  , ⟨0, 102, 102, 102, 102, 10⟩ ]

/-- Two UTC-day series (timestamps in ms): two candles on day 0 and one
candle (price 200) at the start of day 1. -/
def twoDaySeriesA : List Candle :=
  [ ⟨0, 100, 100, 100, 100, 10⟩
  , ⟨43200000, 100, 100, 100, 100, 10⟩
  , ⟨86400000, 200, 200, 200, 200, 10⟩ ]

/-- `twoDaySeriesA` with the volume of the first day-0 candle changed
from 10 to 1000; the day-1 part is identical. -/
def twoDaySeriesB : List Candle :=
  [ ⟨0, 100, 100, 100, 100, 1000⟩
  , ⟨43200000, 100, 100, 100, 100, 10⟩
  , ⟨86400000, 200, 200, 200, 200, 10⟩ ]

/-- 15 strictly rising closes 100..114. -/
def risingCloses : List ℚ :=
  [100, 101, 102, 103, 104, 105, 106, 107, 108, 109, 110, 111, 112, 113, 114]

/-- 16 constant closes. -/
def flatCloses : List ℚ :=
  [100, 100, 100, 100, 100, 100, 100, 100, 100, 100, 100, 100, 100, 100, 100, 100]

/-- A candle with its timestamp erased (set to 0): two series with equal
`stripTs` images carry the same OHLCV data and differ only in time. -/
def stripTs (c : Candle) : Candle := { c with timestamp := 0 }

/-- An indicator row with its timestamp erased. -/
def stripRowTs (r : IndicatorRow) : IndicatorRow := { r with timestamp := 0 }

/-- The non-time payload of a signal: family, direction string, price,
stop-loss and take-profit. -/
def sigCore (s : Signal) : String × String × ℚ × ℚ × ℚ :=
  (s.setup, s.signal_type, s.price, s.stop_loss, s.take_profit)

/-- Loop invariant of `calculate_zigzag`: while the trend is still
undetermined no pivot has been emitted, and the emitted pivot kinds
followed by the kind the tentative final pivot would get for the current
trend form a strictly alternating sequence. -/
def ZigInv (s : IndicatorEngine.ZigState) : Prop :=
  (s.trend = 0 → s.pivots = []) ∧
  List.Chain' (fun a b => a ≠ b)
    (s.pivots.map IndicatorEngine.Pivot.type ++ [if s.trend = 1 then "peak" else "valley"])

/-! ### Helper lemmas -/

-- Batteries marks rational arithmetic `@[irreducible]`; the underlying
-- definitions are ordinary Lean functions, so re-enable unfolding to let
-- `decide` evaluate the embedded pipeline on the concrete test vectors.
unseal Rat.add Rat.mul Rat.inv Rat.sub Rat.ofScientific

/-- Indexing a map over `List.range`. -/
theorem getD_range_map {α : Type} (f : ℕ → α) (d : α) {n i : ℕ} (h : i < n) :
    ((List.range n).map f).getD i d = f i := by
  rw [List.getD_eq_getElem?_getD, List.getElem?_map, List.getElem?_range h]
  rfl

/-- Each entry of `cumsumFrom` is the accumulator plus the sum of the
entries up to and including it. -/
theorem cumsumFrom_getD (xs : List ℚ) : ∀ (acc : ℚ) (i : ℕ), i < xs.length →
    (cumsumFrom acc xs).getD i 0 = acc + (xs.take (i + 1)).sum := by
  induction xs with
  | nil => intro acc i h; simp at h
  | cons x t ih =>
      intro acc i h
      cases i with
      | zero => simp [cumsumFrom]
      | succ j =>
          have hj : j < t.length := by simpa using h
          simp only [cumsumFrom, List.getD_cons_succ, List.take, List.sum_cons]
          rw [ih (acc + x) j hj]
          ring

/-- Each entry of `cumsumList` is the sum of the entries up to and
including it: the cumulative sums never reset. -/
theorem cumsumList_getD (xs : List ℚ) (i : ℕ) (h : i < xs.length) :
    (cumsumList xs).getD i 0 = (xs.take (i + 1)).sum := by
  rw [cumsumList, cumsumFrom_getD xs 0 i h, zero_add]

/-- `calculate_indicators` returns one row per candle. -/
theorem calculateIndicators_length (candles : List Candle) :
    (SetupFinder.calculateIndicators candles).length = candles.length := by
  simp [SetupFinder.calculateIndicators]

set_option maxRecDepth 100000

/-! ### Claim C1 — VWAP session anchoring -/

/-- C1 counterexample: two series with identical timestamps (spanning two
UTC days: candle 2 opens on a later UTC day than candle 0) and identical
day-2 candles, differing only in a day-1 volume, get different VWAP
values at the first candle of day 2 — so the VWAP of
`SetupFinder.calculate_indicators` does not reset at the UTC day
boundary and day-2 VWAP depends on day-1 volume. -/
theorem vwap_no_day_reset_cex :
    twoDaySeriesA.map Candle.timestamp = twoDaySeriesB.map Candle.timestamp ∧
    twoDaySeriesA.drop 2 = twoDaySeriesB.drop 2 ∧
    (twoDaySeriesA.getD 2 defaultCandle).timestamp / 86400000 ≠
      (twoDaySeriesA.getD 0 defaultCandle).timestamp / 86400000 ∧
    ((SetupFinder.calculateIndicators twoDaySeriesA).getD 2 defaultRow).vwap ≠
      ((SetupFinder.calculateIndicators twoDaySeriesB).getD 2 defaultRow).vwap := by
  decide

/-- C1 (amended): the VWAP column is cumulative from the start of the
loaded series — at every row it is the sum of `tp * volume` over all
candles up to that row divided by the sum of `volume` over all candles
up to that row, with no reset of either cumulative sum at UTC
calendar-day boundaries (the timestamps do not enter the computation). -/
theorem vwap_cumulative_from_series_start (candles : List Candle) (i : ℕ)
    (h : i < candles.length) :
    ((SetupFinder.calculateIndicators candles).getD i defaultRow).vwap =
      ((candles.take (i + 1)).map SetupFinder.pvOf).sum /
        ((candles.take (i + 1)).map Candle.volume).sum := by
  have hpv : i < (candles.map SetupFinder.pvOf).length := by simpa using h
  have hvol : i < (candles.map Candle.volume).length := by simpa using h
  simp only [SetupFinder.calculateIndicators]
  rw [getD_range_map _ _ h]
  show (cumsumList (candles.map SetupFinder.pvOf)).getD i 0 /
      (cumsumList (candles.map Candle.volume)).getD i 0 = _
  rw [cumsumList_getD _ i hpv, cumsumList_getD _ i hvol, List.map_take, List.map_take]

/-- C1 witness: the cumulative-VWAP formula evaluated at the day-2 candle
of the two-day series. -/
theorem vwap_cumulative_from_series_start_witness :
    ((SetupFinder.calculateIndicators twoDaySeriesA).getD 2 defaultRow).vwap =
      ((twoDaySeriesA.take 3).map SetupFinder.pvOf).sum /
        ((twoDaySeriesA.take 3).map Candle.volume).sum :=
  vwap_cumulative_from_series_start twoDaySeriesA 2 (by decide)

/-! ### Claim C2 — Pullback confirmation logic -/

/-- C2: `find_setup` emits a Pullback-family LONG signal on
`pullbackLongSeries` even though the prior candle's RSI is 400/7 ≈ 57.1,
which is not in the 25–40 pullback band — the code has no two-stage RSI
confirmation (and no offsets-2–4 lookback window); it only checks the
signal candle itself. -/
theorem pullback_without_two_stage_rsi :
    (SetupFinder.findSetup pullbackLongSeries).map (fun s => (s.setup, s.signal_type)) =
      some ("Pullback", "LONG (Pullback)") ∧
    ((SetupFinder.calculateIndicators pullbackLongSeries).getD 27 defaultRow).rsi = 400 / 7 ∧
    ¬(25 ≤ (400 : ℚ) / 7 ∧ (400 : ℚ) / 7 ≤ 40) := by
  decide

/-! ### Claim C3 — minimum history -/

/-- C3 counterexample: `pullbackLongSeries` has 30 candles — fewer than
the claimed 50 — yet `find_setup` emits a signal. -/
theorem min_history_fifty_cex :
    pullbackLongSeries.length = 30 ∧ pullbackLongSeries.length < 50 ∧
    (SetupFinder.findSetup pullbackLongSeries).isSome = true := by
  decide

/-- C3 (amended): `find_setup` returns no signal — a non-error `none` —
for every series with fewer than 30 candles; 30 is the actual minimum
history. -/
theorem findSetup_below_min_none (candles : List Candle) (h : candles.length < 30) :
    SetupFinder.findSetup candles = none := by
  unfold SetupFinder.findSetup
  exact if_pos (Or.inr h)

/-- C3 witness: the amended theorem applied to the empty series. -/
theorem findSetup_below_min_none_witness : SetupFinder.findSetup [] = none :=
  findSetup_below_min_none [] (by decide)

/-! ### Claim C4 — breakout thresholds -/

/-- C4 counterexample: on `breakoutBoundarySeries` the signal candle
satisfies every breakout-Long condition with the volume ratio exactly at
the claimed inclusive 20% boundary (volume = 1.2 × prior volume), yet
the emitted family is Pullback, not Breakout: the code compares volume
(and body) with strict `>`, so the boundary is excluded. -/
theorem breakout_boundary_cex :
    (let r := (SetupFinder.calculateIndicators breakoutBoundarySeries).getD 28 defaultRow
     let p := (SetupFinder.calculateIndicators breakoutBoundarySeries).getD 27 defaultRow
     r.close > r.vwap ∧ r.rsi > 60 ∧ r.volume = p.volume * 1.2 ∧
       |r.close - r.open_| > |p.close - p.open_| * 1.5 ∧ r.close > r.open_) ∧
    (SetupFinder.findSetup breakoutBoundarySeries).map Signal.setup = some "Pullback" ∧
    (SetupFinder.findSetup breakoutBoundarySeries).map Signal.setup ≠ some "Breakout" := by
  decide

/-- C4 (amended): the breakout check fires Long exactly when the signal
candle closes above VWAP, RSI is strictly above 60, the volume strictly
exceeds 1.2 times the prior volume (the 20% boundary excluded), the body
strictly exceeds 1.5 times the prior body (the 50% boundary excluded)
and the candle is bullish; Short is the exact mirror with close below
VWAP, RSI strictly below 40 and a bearish candle, under the same strict
volume and body conditions. -/
theorem breakout_strict_thresholds (row prevRow prev2Row : IndicatorRow) :
    (SetupFinder.checkSetup2Breakout row prevRow prev2Row = some "LONG (Breakout)" ↔
      row.close > row.vwap ∧ row.rsi > 60 ∧ row.volume > prevRow.volume * 1.2 ∧
        |row.close - row.open_| > |prevRow.close - prevRow.open_| * 1.5 ∧
        row.close > row.open_) ∧
    (SetupFinder.checkSetup2Breakout row prevRow prev2Row = some "SHORT (Breakout)" ↔
      row.close < row.vwap ∧ row.rsi < 40 ∧ row.volume > prevRow.volume * 1.2 ∧
        |row.close - row.open_| > |prevRow.close - prevRow.open_| * 1.5 ∧
        row.close < row.open_) := by
  unfold SetupFinder.checkSetup2Breakout
  simp only []
  split_ifs with hL hS
  · refine ⟨⟨fun _ => hL, fun _ => rfl⟩, ⟨fun hEq => absurd (Option.some.inj hEq) (by decide),
      fun hS' => absurd hS'.2.2.2.2 (not_lt.mpr (le_of_lt hL.2.2.2.2))⟩⟩
  · refine ⟨⟨fun hEq => absurd (Option.some.inj hEq) (by decide), fun hL' => absurd hL' hL⟩,
      ⟨fun _ => hS, fun _ => rfl⟩⟩
  · exact ⟨⟨fun hEq => by simp at hEq, fun hL' => absurd hL' hL⟩,
      ⟨fun hEq => by simp at hEq, fun hS' => absurd hS' hS⟩⟩

/-! ### Claim C5 — pullback stop-loss / take-profit -/

/-- C5 counterexample: on `pullbackShortSeries` `find_setup` emits a
SHORT Pullback whose take-profit is strictly above the signal close —
the code computes `close + |close - ema21| * 2` for both directions, so
the take-profit is not a direction-dependent projection below the close
for Short; and the stop-loss is exactly EMA21, not a 0.2%-buffered
level. -/
theorem pullback_short_tp_above_close_cex :
    (SetupFinder.findSetup pullbackShortSeries).map Signal.signal_type =
      some "SHORT (Pullback)" ∧
    ((SetupFinder.findSetup pullbackShortSeries).getD defaultSignal).price <
      ((SetupFinder.findSetup pullbackShortSeries).getD defaultSignal).take_profit ∧
    ((SetupFinder.findSetup pullbackShortSeries).getD defaultSignal).stop_loss =
      ((SetupFinder.calculateIndicators pullbackShortSeries).getD 28 defaultRow).ema21 := by
  decide

/-- C5 (amended): whenever `find_setup` emits a Pullback-family signal,
the stop-loss is exactly the signal candle's EMA21 (no 0.2% buffer, and
VWAP is not consulted), and the take-profit is
`close + |close - ema21| * 2` for both directions — above the close even
for Short signals. -/
theorem pullback_sl_tp_formula (candles : List Candle)
    (h : (SetupFinder.findSetup candles).map Signal.setup = some "Pullback") :
    (SetupFinder.findSetup candles).map (fun s => (s.stop_loss, s.take_profit)) =
      some
        (((SetupFinder.calculateIndicators candles).getD
            ((SetupFinder.calculateIndicators candles).length - 2) defaultRow).ema21,
          ((SetupFinder.calculateIndicators candles).getD
            ((SetupFinder.calculateIndicators candles).length - 2) defaultRow).close +
            |((SetupFinder.calculateIndicators candles).getD
                ((SetupFinder.calculateIndicators candles).length - 2) defaultRow).close -
              ((SetupFinder.calculateIndicators candles).getD
                ((SetupFinder.calculateIndicators candles).length - 2) defaultRow).ema21| * 2) := by
  unfold SetupFinder.findSetup at h ⊢
  by_cases hg : candles.isEmpty ∨ candles.length < 30
  · rw [if_pos hg] at h
    simp at h
  · rw [if_neg hg] at h ⊢
    simp only [] at h ⊢
    cases h2 : SetupFinder.checkSetup2Breakout
        ((SetupFinder.calculateIndicators candles).getD
          ((SetupFinder.calculateIndicators candles).length - 2) defaultRow)
        ((SetupFinder.calculateIndicators candles).getD
          ((SetupFinder.calculateIndicators candles).length - 3) defaultRow)
        ((SetupFinder.calculateIndicators candles).getD
          ((SetupFinder.calculateIndicators candles).length - 4) defaultRow) with
    | some sig => rw [h2] at h; simp at h
    | none =>
        rw [h2] at h
        cases h1 : SetupFinder.checkSetup1Pullback
            ((SetupFinder.calculateIndicators candles).getD
              ((SetupFinder.calculateIndicators candles).length - 2) defaultRow)
            ((SetupFinder.calculateIndicators candles).getD
              ((SetupFinder.calculateIndicators candles).length - 3) defaultRow)
            ((SetupFinder.calculateIndicators candles).getD
              ((SetupFinder.calculateIndicators candles).length - 4) defaultRow) with
        | some sig => rfl
        | none =>
            rw [h1] at h
            cases h3 : SetupFinder.checkSetup3Reversion
                ((SetupFinder.calculateIndicators candles).getD
                  ((SetupFinder.calculateIndicators candles).length - 2) defaultRow)
                ((SetupFinder.calculateIndicators candles).getD
                  ((SetupFinder.calculateIndicators candles).length - 3) defaultRow) with
            | some sig => rw [h3] at h; simp at h
            | none => rw [h3] at h; simp at h

/-- C5 witness: the stop-loss/take-profit formula evaluated on the
concrete long-pullback series. -/
theorem pullback_sl_tp_formula_witness :
    (SetupFinder.findSetup pullbackLongSeries).map (fun s => (s.stop_loss, s.take_profit)) =
      some
        (((SetupFinder.calculateIndicators pullbackLongSeries).getD
            ((SetupFinder.calculateIndicators pullbackLongSeries).length - 2) defaultRow).ema21,
          ((SetupFinder.calculateIndicators pullbackLongSeries).getD
            ((SetupFinder.calculateIndicators pullbackLongSeries).length - 2) defaultRow).close +
            |((SetupFinder.calculateIndicators pullbackLongSeries).getD
                ((SetupFinder.calculateIndicators pullbackLongSeries).length - 2) defaultRow).close -
              ((SetupFinder.calculateIndicators pullbackLongSeries).getD
                ((SetupFinder.calculateIndicators pullbackLongSeries).length - 2) defaultRow).ema21| * 2) :=
  pullback_sl_tp_formula pullbackLongSeries (by decide)

/-! ### Claim C6 — MalformedSeries error policy -/

/-- C6 counterexample: `nonMonotonicSeries` has strictly decreasing
timestamps (its second candle is earlier than its first), yet
`find_setup` performs no validation and returns a normal Pullback
signal instead of failing fast with a `MalformedSeries` error. -/
theorem no_malformed_series_error_cex :
    (nonMonotonicSeries.getD 1 defaultCandle).timestamp <
      (nonMonotonicSeries.getD 0 defaultCandle).timestamp ∧
    (SetupFinder.findSetup nonMonotonicSeries).map Signal.setup = some "Pullback" := by
  decide

/-- Rows with equal timestamp-erasures share their `close`. -/
theorem stripRow_close {a b : IndicatorRow} (h : stripRowTs a = stripRowTs b) :
    a.close = b.close :=
  @congrArg _ _ (stripRowTs a) (stripRowTs b) IndicatorRow.close h

/-- Rows with equal timestamp-erasures share their `open`. -/
theorem stripRow_open {a b : IndicatorRow} (h : stripRowTs a = stripRowTs b) :
    a.open_ = b.open_ :=
  @congrArg _ _ (stripRowTs a) (stripRowTs b) IndicatorRow.open_ h

/-- Rows with equal timestamp-erasures share their `low`. -/
theorem stripRow_low {a b : IndicatorRow} (h : stripRowTs a = stripRowTs b) :
    a.low = b.low :=
  @congrArg _ _ (stripRowTs a) (stripRowTs b) IndicatorRow.low h

/-- Rows with equal timestamp-erasures share their `high`. -/
theorem stripRow_high {a b : IndicatorRow} (h : stripRowTs a = stripRowTs b) :
    a.high = b.high :=
  @congrArg _ _ (stripRowTs a) (stripRowTs b) IndicatorRow.high h

/-- Rows with equal timestamp-erasures share their `rsi`. -/
theorem stripRow_rsi {a b : IndicatorRow} (h : stripRowTs a = stripRowTs b) :
    a.rsi = b.rsi :=
  @congrArg _ _ (stripRowTs a) (stripRowTs b) IndicatorRow.rsi h

/-- Rows with equal timestamp-erasures share their `ema9`. -/
theorem stripRow_ema9 {a b : IndicatorRow} (h : stripRowTs a = stripRowTs b) :
    a.ema9 = b.ema9 :=
  @congrArg _ _ (stripRowTs a) (stripRowTs b) IndicatorRow.ema9 h

/-- Rows with equal timestamp-erasures share their `ema21`. -/
theorem stripRow_ema21 {a b : IndicatorRow} (h : stripRowTs a = stripRowTs b) :
    a.ema21 = b.ema21 :=
  @congrArg _ _ (stripRowTs a) (stripRowTs b) IndicatorRow.ema21 h

/-- Rows with equal timestamp-erasures share their `vwap`. -/
theorem stripRow_vwap {a b : IndicatorRow} (h : stripRowTs a = stripRowTs b) :
    a.vwap = b.vwap :=
  @congrArg _ _ (stripRowTs a) (stripRowTs b) IndicatorRow.vwap h

/-- Rows with equal timestamp-erasures share their `volume`. -/
theorem stripRow_volume {a b : IndicatorRow} (h : stripRowTs a = stripRowTs b) :
    a.volume = b.volume :=
  @congrArg _ _ (stripRowTs a) (stripRowTs b) IndicatorRow.volume h

/-- Erasing timestamps before `calculate_indicators` is the same as
erasing them from its rows: no indicator column reads the timestamp. -/
theorem calculateIndicators_map_stripTs (candles : List Candle) :
    SetupFinder.calculateIndicators (candles.map stripTs) =
      (SetupFinder.calculateIndicators candles).map stripRowTs := by
  unfold SetupFinder.calculateIndicators
  simp only [List.map_map, List.length_map]
  have h1 : Candle.close ∘ stripTs = Candle.close := funext fun _ => rfl
  have h2 : SetupFinder.tpOf ∘ stripTs = SetupFinder.tpOf := funext fun _ => rfl
  have h3 : SetupFinder.pvOf ∘ stripTs = SetupFinder.pvOf := funext fun _ => rfl
  have h4 : Candle.volume ∘ stripTs = Candle.volume := funext fun _ => rfl
  rw [h1, h2, h3, h4]
  apply List.map_congr_left
  intro i hi
  have hi' : i < candles.length := List.mem_range.mp hi
  have hgd : (candles.map stripTs).getD i defaultCandle =
      stripTs (candles.getD i defaultCandle) := by
    rw [List.getD_eq_getElem?_getD, List.getD_eq_getElem?_getD, List.getElem?_map,
      List.getElem?_eq_getElem hi']
    rfl
  rw [hgd]
  rfl

/-- The pullback check reads only timestamp-independent row fields. -/
theorem checkSetup1_stripRow_congr (a b p q u v : IndicatorRow)
    (h : stripRowTs a = stripRowTs b) :
    SetupFinder.checkSetup1Pullback a p u = SetupFinder.checkSetup1Pullback b q v := by
  unfold SetupFinder.checkSetup1Pullback
  rw [stripRow_close h, stripRow_open h, stripRow_low h, stripRow_high h, stripRow_rsi h,
    stripRow_ema9 h, stripRow_ema21 h, stripRow_vwap h]

/-- The breakout check reads only timestamp-independent fields of the
signal row and the prior row. -/
theorem checkSetup2_stripRow_congr (a b p q u v : IndicatorRow)
    (h : stripRowTs a = stripRowTs b) (h' : stripRowTs p = stripRowTs q) :
    SetupFinder.checkSetup2Breakout a p u = SetupFinder.checkSetup2Breakout b q v := by
  unfold SetupFinder.checkSetup2Breakout
  rw [stripRow_close h, stripRow_open h, stripRow_rsi h, stripRow_vwap h, stripRow_volume h,
    stripRow_close h', stripRow_open h', stripRow_volume h']

/-- The reversion check reads only timestamp-independent fields of the
signal row. -/
theorem checkSetup3_stripRow_congr (a b p q : IndicatorRow)
    (h : stripRowTs a = stripRowTs b) :
    SetupFinder.checkSetup3Reversion a p = SetupFinder.checkSetup3Reversion b q := by
  unfold SetupFinder.checkSetup3Reversion
  rw [stripRow_close h, stripRow_open h, stripRow_rsi h, stripRow_vwap h]

/-- Two series with the same OHLCV data (equal `stripTs` images) get
classified identically up to the signal's `time` field. -/
theorem findSetup_sigCore_eq (c₁ c₂ : List Candle) (h : c₁.map stripTs = c₂.map stripTs) :
    (SetupFinder.findSetup c₁).map sigCore = (SetupFinder.findSetup c₂).map sigCore := by
  have hlen : c₁.length = c₂.length := by
    have h' := congrArg List.length h
    simpa using h'
  have hrows : (SetupFinder.calculateIndicators c₁).map stripRowTs =
      (SetupFinder.calculateIndicators c₂).map stripRowTs := by
    rw [← calculateIndicators_map_stripTs, ← calculateIndicators_map_stripTs, h]
  have hk : ∀ k : ℕ, stripRowTs ((SetupFinder.calculateIndicators c₁).getD k defaultRow) =
      stripRowTs ((SetupFinder.calculateIndicators c₂).getD k defaultRow) := by
    intro k
    have e := congrArg (fun l => l.getD k (stripRowTs defaultRow)) hrows
    simpa [List.getD_eq_getElem?_getD, List.getElem?_map, Option.getD_map] using e
  have hemp : c₁.isEmpty = c₂.isEmpty := by
    cases c₁ with
    | nil => cases c₂ with
      | nil => rfl
      | cons b m => simp at hlen
    | cons a l => cases c₂ with
      | nil => simp at hlen
      | cons b m => rfl
  unfold SetupFinder.findSetup
  by_cases hg1 : c₁.isEmpty ∨ c₁.length < 30
  · have hg2 : c₂.isEmpty ∨ c₂.length < 30 := by rw [← hemp, ← hlen]; exact hg1
    rw [if_pos hg1, if_pos hg2]
  · have hg2 : ¬(c₂.isEmpty ∨ c₂.length < 30) := by rw [← hemp, ← hlen]; exact hg1
    rw [if_neg hg1, if_neg hg2]
    simp only []
    have hLL : (SetupFinder.calculateIndicators c₁).length =
        (SetupFinder.calculateIndicators c₂).length := by
      rw [calculateIndicators_length, calculateIndicators_length, hlen]
    rw [hLL]
    have e2 := checkSetup2_stripRow_congr
      ((SetupFinder.calculateIndicators c₁).getD
        ((SetupFinder.calculateIndicators c₂).length - 2) defaultRow)
      ((SetupFinder.calculateIndicators c₂).getD
        ((SetupFinder.calculateIndicators c₂).length - 2) defaultRow)
      ((SetupFinder.calculateIndicators c₁).getD
        ((SetupFinder.calculateIndicators c₂).length - 3) defaultRow)
      ((SetupFinder.calculateIndicators c₂).getD
        ((SetupFinder.calculateIndicators c₂).length - 3) defaultRow)
      ((SetupFinder.calculateIndicators c₁).getD
        ((SetupFinder.calculateIndicators c₂).length - 4) defaultRow)
      ((SetupFinder.calculateIndicators c₂).getD
        ((SetupFinder.calculateIndicators c₂).length - 4) defaultRow)
      (hk _) (hk _)
    have e1 := checkSetup1_stripRow_congr
      ((SetupFinder.calculateIndicators c₁).getD
        ((SetupFinder.calculateIndicators c₂).length - 2) defaultRow)
      ((SetupFinder.calculateIndicators c₂).getD
        ((SetupFinder.calculateIndicators c₂).length - 2) defaultRow)
      ((SetupFinder.calculateIndicators c₁).getD
        ((SetupFinder.calculateIndicators c₂).length - 3) defaultRow)
      ((SetupFinder.calculateIndicators c₂).getD
        ((SetupFinder.calculateIndicators c₂).length - 3) defaultRow)
      ((SetupFinder.calculateIndicators c₁).getD
        ((SetupFinder.calculateIndicators c₂).length - 4) defaultRow)
      ((SetupFinder.calculateIndicators c₂).getD
        ((SetupFinder.calculateIndicators c₂).length - 4) defaultRow)
      (hk _)
    have e3 := checkSetup3_stripRow_congr
      ((SetupFinder.calculateIndicators c₁).getD
        ((SetupFinder.calculateIndicators c₂).length - 2) defaultRow)
      ((SetupFinder.calculateIndicators c₂).getD
        ((SetupFinder.calculateIndicators c₂).length - 2) defaultRow)
      ((SetupFinder.calculateIndicators c₁).getD
        ((SetupFinder.calculateIndicators c₂).length - 3) defaultRow)
      ((SetupFinder.calculateIndicators c₂).getD
        ((SetupFinder.calculateIndicators c₂).length - 3) defaultRow)
      (hk _)
    rw [e2, e1, e3]
    rw [stripRow_close (hk ((SetupFinder.calculateIndicators c₂).length - 2)),
      stripRow_ema21 (hk ((SetupFinder.calculateIndicators c₂).length - 2)),
      stripRow_low (hk ((SetupFinder.calculateIndicators c₂).length - 2)),
      stripRow_high (hk ((SetupFinder.calculateIndicators c₂).length - 2)),
      stripRow_vwap (hk ((SetupFinder.calculateIndicators c₂).length - 2))]
    cases SetupFinder.checkSetup2Breakout
        ((SetupFinder.calculateIndicators c₂).getD
          ((SetupFinder.calculateIndicators c₂).length - 2) defaultRow)
        ((SetupFinder.calculateIndicators c₂).getD
          ((SetupFinder.calculateIndicators c₂).length - 3) defaultRow)
        ((SetupFinder.calculateIndicators c₂).getD
          ((SetupFinder.calculateIndicators c₂).length - 4) defaultRow) with
    | some sig => rfl
    | none =>
        cases SetupFinder.checkSetup1Pullback
            ((SetupFinder.calculateIndicators c₂).getD
              ((SetupFinder.calculateIndicators c₂).length - 2) defaultRow)
            ((SetupFinder.calculateIndicators c₂).getD
              ((SetupFinder.calculateIndicators c₂).length - 3) defaultRow)
            ((SetupFinder.calculateIndicators c₂).getD
              ((SetupFinder.calculateIndicators c₂).length - 4) defaultRow) with
        | some sig => rfl
        | none =>
            cases SetupFinder.checkSetup3Reversion
                ((SetupFinder.calculateIndicators c₂).getD
                  ((SetupFinder.calculateIndicators c₂).length - 2) defaultRow)
                ((SetupFinder.calculateIndicators c₂).getD
                  ((SetupFinder.calculateIndicators c₂).length - 3) defaultRow) with
            | some sig => rfl
            | none => rfl

/-- C6 (amended): no `MalformedSeries` validation exists anywhere — the
classifier's decision and every signal field except `time` are fully
independent of the timestamps, so malformed (e.g. non-monotonic)
timestamps are processed exactly like well-formed ones; an empty series
yields the normal no-signal `None` from `find_setup` (not an error),
while `calculate_zigzag` on an empty series dies with an uncaught
`IndexError` (modelled as `none`), not a `MalformedSeries` error. -/
theorem classifier_ignores_timestamps :
    (∀ c₁ c₂ : List Candle, c₁.map stripTs = c₂.map stripTs →
      (SetupFinder.findSetup c₁).map sigCore = (SetupFinder.findSetup c₂).map sigCore) ∧
    SetupFinder.findSetup [] = none ∧
    IndicatorEngine.calculateZigzag [] [] 1 = none :=
  ⟨findSetup_sigCore_eq, by decide, rfl⟩

/-- C6 witness: the timestamp-independence applied to the well-formed
long-pullback series and its non-monotonic variant. -/
theorem classifier_ignores_timestamps_witness :
    (SetupFinder.findSetup pullbackLongSeries).map sigCore =
      (SetupFinder.findSetup nonMonotonicSeries).map sigCore :=
  classifier_ignores_timestamps.1 pullbackLongSeries nonMonotonicSeries (by decide)

/-! ### Claim C9 — classifier priority -/

/-- C9: families are checked in the fixed order Breakout, Pullback,
Reversion — if the breakout check succeeds at the signal candle, the
returned signal's family is Breakout regardless of the pullback check
also succeeding, and the single returned `Option` carries at most one
signal per call. -/
theorem breakout_priority_over_pullback (candles : List Candle) (s t : String)
    (hlen : 30 ≤ candles.length)
    (h2 : SetupFinder.checkSetup2Breakout
        ((SetupFinder.calculateIndicators candles).getD
          ((SetupFinder.calculateIndicators candles).length - 2) defaultRow)
        ((SetupFinder.calculateIndicators candles).getD
          ((SetupFinder.calculateIndicators candles).length - 3) defaultRow)
        ((SetupFinder.calculateIndicators candles).getD
          ((SetupFinder.calculateIndicators candles).length - 4) defaultRow) = some s)
    (h1 : SetupFinder.checkSetup1Pullback
        ((SetupFinder.calculateIndicators candles).getD
          ((SetupFinder.calculateIndicators candles).length - 2) defaultRow)
        ((SetupFinder.calculateIndicators candles).getD
          ((SetupFinder.calculateIndicators candles).length - 3) defaultRow)
        ((SetupFinder.calculateIndicators candles).getD
          ((SetupFinder.calculateIndicators candles).length - 4) defaultRow) = some t) :
    (SetupFinder.findSetup candles).map Signal.setup = some "Breakout" := by
  have hg : ¬(candles.isEmpty ∨ candles.length < 30) := by
    rintro (he | hl)
    · cases candles with
      | nil => simp at hlen
      | cons a l => simp [List.isEmpty] at he
    · omega
  unfold SetupFinder.findSetup
  rw [if_neg hg]
  simp only []
  rw [h2]
  rfl

/-- C9 witness: on the engineered series where both the breakout and the
pullback checks fire at the signal candle, the emitted family is
Breakout. -/
theorem breakout_priority_over_pullback_witness :
    (SetupFinder.findSetup breakoutAndPullbackSeries).map Signal.setup = some "Breakout" :=
  breakout_priority_over_pullback breakoutAndPullbackSeries
    "LONG (Breakout)" "LONG (Pullback)" (by decide) (by decide) (by decide)

/-! ### Claim C7 — RSI warm-up fill -/

/-- `diff` produces one entry fewer than its input. -/
theorem diffList_length (l : List ℚ) : (diffList l).length = l.length - 1 := by
  induction l with
  | nil => rfl
  | cons x t ih =>
      cases t with
      | nil => rfl
      | cons y u => simpa [diffList] using ih

/-- The gain series has one entry per close. -/
theorem gainsOf_length (closes : List ℚ) : (gainsOf closes).length = closes.length := by
  cases closes with
  | nil => rfl
  | cons c cs => simp [gainsOf, diffList_length]

/-- The loss series has one entry per close. -/
theorem lossesOf_length (closes : List ℚ) : (lossesOf closes).length = closes.length := by
  cases closes with
  | nil => rfl
  | cons c cs => simp [lossesOf, diffList_length]

/-- Every entry of the gain series is nonnegative. -/
theorem gainsOf_nonneg (closes : List ℚ) : ∀ x ∈ gainsOf closes, 0 ≤ x := by
  intro x hx
  cases closes with
  | nil => simp [gainsOf] at hx
  | cons c cs =>
      simp only [gainsOf, List.mem_cons, List.mem_map] at hx
      rcases hx with rfl | ⟨d, _, rfl⟩
      · exact le_refl 0
      · by_cases hd : d > 0
        · rw [if_pos hd]; exact le_of_lt hd
        · rw [if_neg hd]

/-- Every entry of the loss series is nonnegative. -/
theorem lossesOf_nonneg (closes : List ℚ) : ∀ x ∈ lossesOf closes, 0 ≤ x := by
  intro x hx
  cases closes with
  | nil => simp [lossesOf] at hx
  | cons c cs =>
      simp only [lossesOf, List.mem_cons, List.mem_map] at hx
      rcases hx with rfl | ⟨d, _, rfl⟩
      · exact le_refl 0
      · by_cases hd : d < 0
        · rw [if_pos hd]; linarith
        · rw [if_neg hd]

/-- The trailing-window average of a nonnegative series is nonnegative. -/
theorem window_avg_nonneg (xs : List ℚ) (hxs : ∀ x ∈ xs, 0 ≤ x) (w i : ℕ) :
    0 ≤ (((xs.take (i + 1)).drop (i + 1 - w)).sum) / (w : ℚ) := by
  refine div_nonneg (List.sum_nonneg ?_) (by positivity)
  intro x hx
  exact hxs x (List.mem_of_mem_take (List.mem_of_mem_drop hx))

/-- C7 (amended): every RSI value lies in the closed interval
`[0, 100]`, and the first `period - 1` rows — the rows where the rolling
window is incomplete and pandas yields NaN — are filled with the neutral
value 50 (row `period - 1` is the first computed row and is not
neutral-filled). -/
theorem rsi_bounds_and_warmup_fill (period : ℕ) (closes : List ℚ) (i : ℕ)
    (h : i < closes.length) :
    0 ≤ (IndicatorEngine.calculateRsi period closes).getD i 0 ∧
    (IndicatorEngine.calculateRsi period closes).getD i 0 ≤ 100 ∧
    (i < period - 1 → (IndicatorEngine.calculateRsi period closes).getD i 0 = 50) := by
  have hg : i < (gainsOf closes).length := by rw [gainsOf_length]; exact h
  have hl : i < (lossesOf closes).length := by rw [lossesOf_length]; exact h
  unfold IndicatorEngine.calculateRsi rsiList
  simp only []
  rw [getD_range_map _ _ h]
  unfold rollingMean
  rw [getD_range_map _ _ hg, getD_range_map _ _ hl]
  by_cases hp : i + 1 < period
  · rw [if_pos hp, if_pos hp]
    exact ⟨by norm_num [rsiCell], by norm_num [rsiCell], fun _ => by norm_num [rsiCell]⟩
  · rw [if_neg hp, if_neg hp]
    have hGnn : 0 ≤ (((gainsOf closes).take (i + 1)).drop (i + 1 - period)).sum / (period : ℚ) :=
      window_avg_nonneg _ (gainsOf_nonneg closes) period i
    have hLnn : 0 ≤ (((lossesOf closes).take (i + 1)).drop (i + 1 - period)).sum / (period : ℚ) :=
      window_avg_nonneg _ (lossesOf_nonneg closes) period i
    refine ⟨?_, ?_, fun hi => absurd hi (by omega)⟩ <;>
      · simp only [rsiCell]
        set G := (((gainsOf closes).take (i + 1)).drop (i + 1 - period)).sum / (period : ℚ)
        set L := (((lossesOf closes).take (i + 1)).drop (i + 1 - period)).sum / (period : ℚ)
        by_cases hL0 : L = 0
        · rw [if_pos hL0]
          by_cases hG0 : G = 0
          · rw [if_pos hG0] <;> norm_num
          · rw [if_neg hG0] <;> norm_num
        · rw [if_neg hL0]
          have hLpos : 0 < L := lt_of_le_of_ne hLnn (Ne.symm hL0)
          have hrs : 0 ≤ G / L := div_nonneg hGnn hLnn
          have h1 : 100 / (1 + G / L) ≤ 100 := div_le_self (by norm_num) (by linarith)
          have h2 : 0 ≤ 100 / (1 + G / L) := div_nonneg (by norm_num) (by linarith)
          linarith

/-- C7 witness: the bounds and the neutral fill evaluated at row 3 of
the constant series. -/
theorem rsi_bounds_and_warmup_fill_witness :
    0 ≤ (IndicatorEngine.calculateRsi 14 flatCloses).getD 3 0 ∧
    (IndicatorEngine.calculateRsi 14 flatCloses).getD 3 0 ≤ 100 ∧
    (3 < 14 - 1 → (IndicatorEngine.calculateRsi 14 flatCloses).getD 3 0 = 50) :=
  rsi_bounds_and_warmup_fill 14 flatCloses 3 (by decide)

/-- C7 counterexample: on 15 strictly rising closes,
`IndicatorEngine.calculate_rsi` with period 14 produces `100`, not `50`,
at row 13 — a row within the claimed "first `period` rows" (only the
first `period - 1` rows are NaN-filled with 50; row `period - 1` already
holds a computed value). -/
theorem rsi_warmup_boundary_cex :
    13 < 14 ∧
    (IndicatorEngine.calculateRsi 14 risingCloses).getD 13 0 = 100 ∧
    (IndicatorEngine.calculateRsi 14 risingCloses).getD 13 0 ≠ 50 := by
  decide

/-! ### Claim C8 — RSI zero-loss policy -/

/-- C8 (amended): at any row whose rolling window is complete, if the
trailing-window average loss is 0 then the RSI is 100 when the average
gain is positive (the infinite `gain/loss` ratio collapses
`100 - 100/(1+rs)` to 100) and 50 when the average gain is also 0 (the
NaN ratio is replaced by the neutral fill); the value is always a real
number, never NaN. -/
theorem rsi_zero_loss_policy (period : ℕ) (closes : List ℚ) (i : ℕ) (g : ℚ)
    (hi : i < closes.length)
    (hg : (rollingMean period (gainsOf closes)).getD i none = some g)
    (hl : (rollingMean period (lossesOf closes)).getD i none = some 0) :
    (IndicatorEngine.calculateRsi period closes).getD i 0 =
      if g = 0 then 50 else 100 := by
  unfold IndicatorEngine.calculateRsi rsiList
  simp only []
  rw [getD_range_map _ _ hi, hg, hl]
  simp [rsiCell]

/-- C8 witness: on 15 strictly rising closes the window at row 14 has
average gain 1 and average loss 0, and the RSI collapses to 100. -/
theorem rsi_zero_loss_policy_witness :
    (IndicatorEngine.calculateRsi 14 risingCloses).getD 14 0 =
      if (1 : ℚ) = 0 then 50 else 100 :=
  rsi_zero_loss_policy 14 risingCloses 14 1 (by decide) (by decide) (by decide)

/-- C8 counterexample: on a constant series, row 14 is past the warm-up
(its rolling window is complete: the trailing average loss evaluates to
`some 0`), the average loss is 0, yet RSI is 50, not 100 — with both
gain and loss 0 the pandas ratio is NaN (not infinity) and `fillna`
turns it into the neutral 50. -/
theorem rsi_zero_loss_zero_gain_cex :
    (rollingMean 14 (lossesOf flatCloses)).getD 14 none = some 0 ∧
    (IndicatorEngine.calculateRsi 14 flatCloses).getD 14 0 = 50 ∧
    (IndicatorEngine.calculateRsi 14 flatCloses).getD 14 0 ≠ 100 := by
  decide

/-! ### Claim C10 — ZigZag alternation -/

/-- Appending one more element distinct from the current last element
preserves strict alternation. -/
theorem chain'_snoc_ne (l : List String) (a b : String) (hab : a ≠ b)
    (hc : List.Chain' (fun x y => x ≠ y) (l ++ [a])) :
    List.Chain' (fun x y => x ≠ y) ((l ++ [a]) ++ [b]) := by
  rw [List.chain'_append]
  refine ⟨hc, List.chain'_singleton b, ?_⟩
  intro x hx y hy
  rw [List.getLast?_concat] at hx
  simp only [List.head?_cons, Option.mem_def, Option.some.injEq] at hx hy
  rw [← hx, ← hy]
  exact hab

/-- One step of the ZigZag loop preserves the invariant. -/
theorem zigzagStep_inv (dev : ℚ) (ts : List Nat) (s : IndicatorEngine.ZigState)
    (i : ℕ) (p : ℚ) (h : ZigInv s) : ZigInv (IndicatorEngine.zigzagStep dev ts s i p) := by
  obtain ⟨h0, hch⟩ := h
  unfold IndicatorEngine.zigzagStep
  simp only []
  split_ifs with ht0 hup hdn ht1 hnew hrev htm hlow hrev2
  · -- trend 0, upward impulse: trend becomes 1, no pivot emitted yet
    refine ⟨fun habs => by simp at habs, ?_⟩
    rw [h0 ht0]
    simp
  · -- trend 0, downward impulse: trend becomes -1
    refine ⟨fun habs => by simp at habs, ?_⟩
    rw [h0 ht0]
    simp
  · -- trend 0, no impulse: state unchanged
    exact ⟨h0, hch⟩
  · -- trend 1, new high: only the anchor moves
    exact ⟨h0, hch⟩
  · -- trend 1, reversal: emit a peak, flip to -1
    refine ⟨fun habs => by simp at habs, ?_⟩
    simp only [List.map_append, List.map_cons, List.map_nil]
    rw [ht1] at hch
    simp only [if_pos rfl] at hch
    exact chain'_snoc_ne _ "peak" "valley" (by decide) hch
  · -- trend 1, no reversal: state unchanged
    exact ⟨h0, hch⟩
  · -- trend -1, new low: only the anchor moves
    exact ⟨h0, hch⟩
  · -- trend -1, reversal: emit a valley, flip to 1
    refine ⟨fun habs => by simp at habs, ?_⟩
    simp only [List.map_append, List.map_cons, List.map_nil]
    rw [htm] at hch
    simp only [if_neg (by decide : ¬((-1 : Int) = 1))] at hch
    exact chain'_snoc_ne _ "valley" "peak" (by decide) hch
  · -- trend -1, no reversal: state unchanged
    exact ⟨h0, hch⟩
  · -- unreachable trend value: state unchanged
    exact ⟨h0, hch⟩

/-- The whole ZigZag loop preserves the invariant. -/
theorem zigzagLoop_inv (dev : ℚ) (ts : List Nat) (l : List ℚ) :
    ∀ (i : ℕ) (s : IndicatorEngine.ZigState), ZigInv s →
      ZigInv (IndicatorEngine.zigzagLoop dev ts i l s) := by
  induction l with
  | nil => intro i s hs; exact hs
  | cons p rest ih =>
      intro i s hs
      exact ih (i + 1) (IndicatorEngine.zigzagStep dev ts s i p)
        (zigzagStep_inv dev ts s i p hs)

/-- C10: for every non-empty close series, every timestamp column and
every deviation percentage, the pivot sequence of `calculate_zigzag`
strictly alternates in kind at every adjacent pair not involving the
final, tentative pivot (in fact the invariant shows the final pivot
alternates as well). -/
theorem zigzag_alternation (closes : List ℚ) (ts : List Nat) (dev : ℚ)
    (ps : List IndicatorEngine.Pivot)
    (h : IndicatorEngine.calculateZigzag closes ts dev = some ps) :
    List.Chain' (fun a b : IndicatorEngine.Pivot => a.type ≠ b.type) ps.dropLast := by
  cases closes with
  | nil => simp [IndicatorEngine.calculateZigzag] at h
  | cons c0 rest =>
      unfold IndicatorEngine.calculateZigzag at h
      simp only [Option.some.injEq] at h
      have hinv : ZigInv (IndicatorEngine.zigzagLoop dev ts 1 rest ⟨c0, 0, 0, []⟩) :=
        zigzagLoop_inv dev ts rest 1 ⟨c0, 0, 0, []⟩ ⟨fun _ => rfl, by simp⟩
      have hfull : List.Chain' (fun a b : IndicatorEngine.Pivot => a.type ≠ b.type) ps := by
        rw [← h]
        have h2 := hinv.2
        rw [← List.chain'_map IndicatorEngine.Pivot.type]
        have h3 : ((IndicatorEngine.zigzagLoop dev ts 1 rest ⟨c0, 0, 0, []⟩).pivots ++
            [IndicatorEngine.finalPivot ts
              (IndicatorEngine.zigzagLoop dev ts 1 rest ⟨c0, 0, 0, []⟩)]).map
              IndicatorEngine.Pivot.type =
            (IndicatorEngine.zigzagLoop dev ts 1 rest ⟨c0, 0, 0, []⟩).pivots.map
              IndicatorEngine.Pivot.type ++
              [if (IndicatorEngine.zigzagLoop dev ts 1 rest ⟨c0, 0, 0, []⟩).trend = 1 then
                "peak" else "valley"] := by
          rw [List.map_append]
          rfl
        rw [h3]
        exact h2
      rw [List.dropLast_eq_take]
      exact List.Chain'.take hfull (ps.length - 1)

/-- C10 witness: on the closes 100, 105, 101, 104 with deviation 1% the
pivots are a peak at 105, a valley at 101 and a tentative peak at 104,
and the kinds alternate away from the final pivot. -/
theorem zigzag_alternation_witness :
    List.Chain' (fun a b : IndicatorEngine.Pivot => a.type ≠ b.type)
      (([⟨1, 105, "peak", 1⟩, ⟨2, 101, "valley", 2⟩, ⟨3, 104, "peak", 3⟩] :
        List IndicatorEngine.Pivot).dropLast) :=
  zigzag_alternation [100, 105, 101, 104] [0, 1, 2, 3] 1
    [⟨1, 105, "peak", 1⟩, ⟨2, 101, "valley", 2⟩, ⟨3, 104, "peak", 3⟩] (by decide)

end HypeBot
